import Mathlib

/-!
Verification development for the paramak tokamak-assembly pipeline.

The Python modules `src/paramak/assemblies/tokamak.py` and
`src/paramak/assemblies/spherical_tokamak.py` are embedded shallowly:
pure arithmetic becomes functions over `ℚ`, the geometry kernel's solids
become a symbolic inductive type, kernel boolean calls are recorded in a
trace, and exceptions become `Except` values that carry the assembly
state observable at the moment of the raise.
-/

namespace Paramak

/-- The three build-entry tags (`LayerType` in `paramak.utils`). -/
inductive LayerType
  | gap
  | solid
  | plasma
deriving DecidableEq

/-- A build entry: a tag plus a thickness. -/
abbrev BuildEntry := LayerType × ℚ

/-- A radial or vertical build: an ordered list of entries. -/
abbrev Build := List BuildEntry

/-- Sum of the thicknesses of all entries of a build. -/
def sumThick (b : Build) : ℚ :=
  (b.map (fun e => e.2)).sum

/-- Modelled from the spec: `get_plasma_index` from `paramak.utils` (the
`utils` module is not included under `src/`).  Spec §4.1: returns the
unique index of the PLASMA entry and fails with ConfigurationError
(here: `none`) if the count of PLASMA entries is not exactly 1. -/
def get_plasma_index : Build → Option ℕ
  | [] => none
  | e :: rest =>
    if e.1 = LayerType.plasma then
      if rest.all (fun x => decide (x.1 ≠ LayerType.plasma)) then some 0 else none
    else
      (get_plasma_index rest).map (· + 1)

/-- Modelled from the spec: `get_plasma_value` from `paramak.utils`
(not under `src/`).  Spec §4.1 `plasma_thickness`: the thickness of the
unique PLASMA entry. -/
def get_plasma_value (b : Build) : Option ℚ :=
  (get_plasma_index b).bind (fun i => (b.get? i).map (fun e => e.2))

/-- Modelled from the spec: `sum_up_to_plasma` from `paramak.utils`
(not under `src/`).  Spec §4.1 `prefix_thickness_before_plasma`: sum of
the thicknesses of all entries (gap and solid alike) strictly before
the plasma index. -/
def sum_up_to_plasma (b : Build) : Option ℚ :=
  (get_plasma_index b).map (fun i => sumThick (b.take i))

/-- Modelled from the spec: `sum_up_to_gap_before_plasma` from
`paramak.utils` (not under `src/`).  Spec §4.1: same as the previous
sum but including a GAP entry immediately preceding the plasma, i.e.
the whole prefix strictly before the plasma index. -/
def sum_up_to_gap_before_plasma (b : Build) : Option ℚ :=
  (get_plasma_index b).map (fun i => sumThick (b.take i))

/-- Modelled from the spec: `sum_before_after_plasma` from
`paramak.utils` (not under `src/`).  Spec §4.4 uses it for the vertical
anchor: the pair of thickness sums strictly before and strictly after
the plasma entry. -/
def sum_before_after_plasma (b : Build) : Option (ℚ × ℚ) :=
  (get_plasma_index b).map (fun i => (sumThick (b.take i), sumThick (b.drop (i + 1))))

/-- Python list indexing `l[i]`: negative indices count from the end,
out-of-range indices give `none` (an `IndexError` in the source). -/
def pyGet (l : List α) (i : ℤ) : Option α :=
  let j : ℤ := if i < 0 then i + l.length else i
  if 0 ≤ j then l.get? j.toNat else none

/-- Clamp a Python slice bound into `[0, l.length]`. -/
def pyBound (l : List α) (i : ℤ) : ℕ :=
  if i < 0 then (max (i + l.length) 0).toNat else min i.toNat l.length

/-- Python slicing `l[s:e]` with the usual clamping semantics. -/
def pySlice (l : List α) (s e : ℤ) : List α :=
  (l.take (pyBound l e)).drop (pyBound l s)

/-- An RGB or RGBA tuple, as passed to `cq.Color`. -/
abbrev Color := List ℚ

/-- The caller-supplied color table. -/
abbrev ColorTable := List (String × Color)

/-- The source lookup `colors.get(name, (0.5, 0.5, 0.5))`. -/
def colorGet (colors : ColorTable) (n : String) : Color :=
  (colors.lookup n).getD [1/2, 1/2, 1/2]

/-- Symbolic solids produced by the geometry kernel.  Leaf constructors
record the parameters the source passes to the kernel collaborators;
`extraShape` stands for an opaque caller-supplied workplane handle. -/
inductive Solid
  | cylinder (innerRadius thickness rotationAngle height : ℚ)
      (name : Option String) (referencePoint : Option (String × ℚ))
  | blanket (minorRadius majorRadius triangularity elongation : ℚ)
      (thickness offsetFromPlasma : List ℚ)
      (startAngle stopAngle rotationAngle : ℚ)
      (name : String) (allowOverlappingShape connectToCenter : Bool)
  | plasmaSolid (majorRadius minorRadius elongation triangularity rotationAngle : ℚ)
  | extraShape (id : ℕ)
  | union (a b : Solid)
  | cut (a b : Solid)
  | intersect (a b : Solid)
deriving DecidableEq

/-- A recorded kernel boolean call. -/
inductive KernelOp
  | unionOp (a b : Solid)
  | cutOp (a b : Solid)
  | intersectOp (a b : Solid)
deriving DecidableEq

/-- A named, colored part of an assembly. -/
abbrev Part := String × Solid × Color

/-- The source call `my_assembly.add(solid, name=name, color=cq.Color(*colors.get(name, grey)))`. -/
def partMk (colors : ColorTable) (n : String) (s : Solid) : Part :=
  (n, s, colorGet colors n)

/-- Modelled from the spec: the kernel collaborator
`center_column_shield_cylinder` (the `workplanes` package is not under
`src/`).  Spec §4.4: a hollow cylindrical shell with the given inner
radius and thickness. -/
def center_column_shield_cylinder (inner_radius thickness : ℚ) (name : Option String)
    (rotation_angle height : ℚ) (reference_point : Option (String × ℚ)) : Solid :=
  Solid.cylinder inner_radius thickness rotation_angle height name reference_point

/-- Modelled from the spec: the kernel collaborator `blanket_from_plasma`
(the `workplanes` package is not under `src/`).  Spec §4.5: an offset
lofted shell following the plasma boundary. -/
def blanket_from_plasma (minor_radius major_radius triangularity elongation : ℚ)
    (thickness offset_from_plasma : List ℚ) (start_angle stop_angle rotation_angle : ℚ)
    (name : String) (allow_overlapping_shape connect_to_center : Bool) : Solid :=
  Solid.blanket minor_radius major_radius triangularity elongation
    thickness offset_from_plasma start_angle stop_angle rotation_angle
    name allow_overlapping_shape connect_to_center

/-- Modelled from the spec: the kernel collaborator `plasma_simplified`
(the `workplanes` package is not under `src/`).  Spec §4.3: the revolved
D-shaped plasma solid. -/
def plasma_simplified (major_radius minor_radius elongation triangularity rotation_angle : ℚ) :
    Solid :=
  Solid.plasmaSolid major_radius minor_radius elongation triangularity rotation_angle

/-- The derived equatorial geometry scalars (spec §4.2). -/
structure EqGeo where
  inner : ℚ
  outer : ℚ
  major : ℚ
  minor : ℚ
deriving DecidableEq

/-- The equatorial-geometry derivation shared by `tokamak` /
`spherical_tokamak` (`tokamak.py` lines 254-260, `spherical_tokamak.py`
lines 193-202): inner and outer equatorial points, major and minor
radius. -/
def equatorialGeometry? (radial_build : Build) : Option EqGeo :=
  match sum_up_to_plasma radial_build, get_plasma_value radial_build with
  | some inner_equatorial_point, some plasma_radial_thickness =>
    let outer_equatorial_point := inner_equatorial_point + plasma_radial_thickness
    let major_radius := (outer_equatorial_point + inner_equatorial_point) / 2
    let minor_radius := major_radius - inner_equatorial_point
    some ⟨inner_equatorial_point, outer_equatorial_point, major_radius, minor_radius⟩
  | _, _ => none

/-- The exceptions the pipeline can raise. -/
inductive PipelineError
  | configuration
  | valueError (msg : String)
  | indexError
deriving DecidableEq

/-- A raised exception together with the assembly parts already
registered and the kernel calls already made at the moment of the raise. -/
structure Failure where
  error : PipelineError
  partsAtFailure : List Part
  traceAtFailure : List KernelOp
deriving DecidableEq

/-- A successfully returned assembly: its ordered parts, the full trace
of kernel boolean calls, and the four stored scalar attributes. -/
structure Output where
  parts : List Part
  trace : List KernelOp
  elongation : ℚ
  triangularity : ℚ
  major_radius : ℚ
  minor_radius : ℚ
deriving DecidableEq

/-- An element of the caller's `extra_cut_shapes` list: either a genuine
`cq.Workplane` solid handle or some other Python value, recorded by the
string `type(entry)` formats to. -/
inductive ExtraEntry
  | workplane (s : Solid)
  | notWorkplane (typeName : String)
deriving DecidableEq

/-- Whether an `extra_cut_shapes` entry is a `cq.Workplane`. -/
def ExtraEntry.isWorkplane : ExtraEntry → Bool
  | .workplane _ => true
  | .notWorkplane _ => false

/-- Whether an `Except` value is a success. -/
def isOk : Except ε α → Bool
  | .ok _ => true
  | .error _ => false

/-- The part names of a successfully returned assembly. -/
def resultPartNames : Except Failure Output → Option (List String)
  | .ok o => some (o.parts.map (fun p => p.1))
  | .error _ => none

/-- The stored elongation attribute of a successfully returned assembly. -/
def resultElongation : Except Failure Output → Option ℚ
  | .ok o => some o.elongation
  | .error _ => none

/-- The raised error of a failed pipeline run. -/
def failureError : Except Failure Output → Option PipelineError
  | .ok _ => none
  | .error f => some f.error

/-- The names of the parts registered before a failed run raised. -/
def failurePartNames : Except Failure Output → Option (List String)
  | .ok _ => none
  | .error f => some (f.partsAtFailure.map (fun p => p.1))

/-- The kernel calls made before a failed run raised. -/
def failureTrace : Except Failure Output → Option (List KernelOp)
  | .ok _ => none
  | .error f => some f.traceAtFailure

/-- The name, inner radius and outer radius of a named cylinder solid
(outer radius = inner radius + thickness, spec §4.4). -/
def cylinderInfo : Solid → Option (String × ℚ × ℚ)
  | .cylinder inner th _ _ (some n) _ => some (n, inner, inner + th)
  | _ => none

/-- Sequentially cut `entry` with every cutter in list order, recording
each kernel cut call (`for cutter in combined_cutters: entry = entry.cut(cutter)`). -/
def cutWithAll (entry : Solid) (cutters : List Solid) : Solid × List KernelOp :=
  cutters.foldl
    (fun acc c => (Solid.cut acc.1 c, acc.2 ++ [KernelOp.cutOp acc.1 c]))
    (entry, [])

/-- Pairwise union in list order with `seed` as the accumulator,
recording each kernel union call (the `reactor_compound` reduction). -/
def unionFold (seed : Solid) (rest : List Solid) : Solid × List KernelOp :=
  rest.foldl
    (fun acc e => (Solid.union acc.1 e, acc.2 ++ [KernelOp.unionOp acc.1 e]))
    (seed, [])

/-- The `extra_cut_shapes` registration loop shared by both assembly
functions: each `cq.Workplane` entry is added as part
`add_extra_cut_shape_<i+1>`; any other entry raises a `ValueError`
naming its type, carrying the parts registered so far. -/
def validate_extra_cut_shapes (colors : ColorTable) :
    List ExtraEntry → ℕ → Except (String × List Part) (List Part × List Solid)
  | [], _ => .ok ([], [])
  | .workplane s :: rest, i =>
    let p := partMk colors ("add_extra_cut_shape_" ++ toString (i + 1)) s
    match validate_extra_cut_shapes colors rest (i + 1) with
    | .ok (ps, ss) => .ok (p :: ps, s :: ss)
    | .error (m, ps) => .error (m, p :: ps)
  | .notWorkplane tn :: _, _ =>
    .error ("extra_cut_shapes should only contain cadquery Workplanes, not " ++ tn, [])

/-- The intersect-shape stage shared by both assembly functions: each
extra intersect shape is intersected with the reactor compound,
registered as part `extra_intersect_shapes_<i+1>` and collected as a
cutter. -/
def buildIntersects (colors : ColorTable) (compound : Solid) :
    List Solid → ℕ → List Part × List Solid × List KernelOp
  | [], _ => ([], [], [])
  | s :: rest, i =>
    let inter := Solid.intersect s compound
    let (ps, cs, tr) := buildIntersects colors compound rest (i + 1)
    (partMk colors ("extra_intersect_shapes_" ++ toString (i + 1)) inter :: ps,
     inter :: cs,
     KernelOp.intersectOp s compound :: tr)

/-- From `spherical_tokamak.py` lines 266-293: cut every layer with the full
cutter list, decompose it into its solids, and register one part per
solid (`layer_<i+1>_part_<j+1>` when more than one, `layer_<i+1>`
otherwise).  `comps` is the kernel's connected-component decomposition
(`list(entry.solids())`). -/
def registerLayersCut (colors : ColorTable) (comps : Solid → List Solid)
    (cutters : List Solid) : List Solid → ℕ → List Part × List KernelOp
  | [], _ => ([], [])
  | entry :: rest, i =>
    let (cutE, ops) := cutWithAll entry cutters
    let sl := comps cutE
    let here : List Part :=
      if 1 < sl.length then
        sl.enum.map (fun p =>
          partMk colors ("layer_" ++ toString (i + 1) ++ "_part_" ++ toString (p.1 + 1)) p.2)
      else
        [partMk colors ("layer_" ++ toString (i + 1)) (sl.headD cutE)]
    let (ps, tr) := registerLayersCut colors comps cutters rest (i + 1)
    (here ++ ps, ops ++ tr)

/-- From `spherical_tokamak.py` lines 296-298: register every layer directly
as `layer_<i+1>` when there is nothing to cut. -/
def plainLayerParts (colors : ColorTable) : List Solid → ℕ → List Part
  | [], _ => []
  | entry :: rest, i =>
    partMk colors ("layer_" ++ toString (i + 1)) entry :: plainLayerParts colors rest (i + 1)

namespace SphericalTokamak

/-- From `spherical_tokamak.py` lines 74-104, the loop body of
`create_center_column_shield_cylinders`: walk the radial build up to
the plasma (stopping also at a gap directly before the plasma), gaps
advancing the running radius, other entries emitting a shell.  The gap
branch reads `radial_build[index + 1]`; when that is out of range the
source raises an `IndexError`, here `none`. -/
def create_ccs_cylinders_aux (rotation_angle height before : ℚ) :
    List BuildEntry → ℚ → ℕ → Option (List Solid)
  | [], _, _ => some []
  | item :: rest, total_sum, layer_count =>
    if item.1 = LayerType.plasma then some []
    else if item.1 = LayerType.gap then
      match rest.head? with
      | none => none
      | some nxt =>
        if nxt.1 = LayerType.plasma then some []
        else create_ccs_cylinders_aux rotation_angle height before rest
          (total_sum + item.2) layer_count
    else
      let lc := layer_count + 1
      let cyl := center_column_shield_cylinder total_sum item.2
        (some ("layer_" ++ toString lc)) rotation_angle height (some ("lower", -before))
      (create_ccs_cylinders_aux rotation_angle height before rest
        (total_sum + item.2) lc).map (fun l => cyl :: l)

/-- From `spherical_tokamak.py` lines 74-104: the spherical-tokamak
center-column shield builder.  The shell height is the total vertical
build thickness; the lower reference is minus the vertical thickness
before the plasma. -/
def create_center_column_shield_cylinders (radial_build vertical_build : Build)
    (rotation_angle : ℚ) : Option (List Solid) :=
  match sum_before_after_plasma vertical_build with
  | none => none
  | some (before, _) =>
    let center_column_shield_height := sumThick vertical_build
    create_ccs_cylinders_aux rotation_angle center_column_shield_height before
      radial_build 0 0

/-- From `spherical_tokamak.py` lines 19-71, the loop body of
`create_blanket_layers_after_plasma`: one lofted shell per non-gap
entry after the plasma, cut by the central cutting cylinder, with
cumulative offsets per direction.  The vertical-build lookups use
Python indexing and the error case carries the kernel calls already
made. -/
def create_blanket_layers_aux (vb : Build) (piv : ℕ)
    (minor major tri elong rot : ℚ) (cc : Solid) (pir : ℕ) :
    List BuildEntry → ℕ → ℚ → ℚ → ℚ → List Solid → List KernelOp →
    Except (List KernelOp) (List Solid × List KernelOp)
  | [], _, _, _, _, accS, accT => .ok (accS, accT)
  | item :: rest, i, crb, cuvb, clvb, accS, accT =>
    match pyGet vb ((piv : ℤ) + 1 + i), pyGet vb ((piv : ℤ) - 1 - i) with
    | some upperIt, some lowerIt =>
      let upper_thicknees := upperIt.2
      let lower_thicknees := lowerIt.2
      let radial_thickness := item.2
      if item.1 = LayerType.gap then
        create_blanket_layers_aux vb piv minor major tri elong rot cc pir rest (i + 1)
          (crb + radial_thickness) (cuvb + upper_thicknees) (clvb + lower_thicknees)
          accS accT
      else
        let layer0 := blanket_from_plasma minor major tri elong
          [lower_thicknees, radial_thickness, upper_thicknees]
          [clvb, crb, cuvb] (-90) 90 rot
          ("layer_" ++ toString (pir + i + 1)) true true
        let layer := Solid.cut layer0 cc
        create_blanket_layers_aux vb piv minor major tri elong rot cc pir rest (i + 1)
          (crb + radial_thickness) (cuvb + upper_thicknees) (clvb + lower_thicknees)
          (accS ++ [layer]) (accT ++ [KernelOp.cutOp layer0 cc])
    | _, _ => .error accT

/-- From `spherical_tokamak.py` lines 19-71: the spherical-tokamak lofted
layer builder. -/
def create_blanket_layers_after_plasma (radial_build vertical_build : Build)
    (minor major tri elong rot : ℚ) (center_column : Solid) :
    Except (List KernelOp) (List Solid × List KernelOp) :=
  match get_plasma_index radial_build, get_plasma_index vertical_build with
  | some pir, some piv =>
    create_blanket_layers_aux vertical_build piv minor major tri elong rot
      center_column pir (radial_build.drop (pir + 1)) 0 0 0 0 [] []
  | _, _ => .error []

/-- Everything `spherical_tokamak` computes before building the
assembly (`spherical_tokamak.py` lines 193-238): derived scalars,
plasma solid, center-column cylinders, and the blanket layers with
their kernel trace. -/
structure Prepared where
  geo : EqGeo
  elongation : ℚ
  plasma : Solid
  cylinders : List Solid
  layers : List Solid
  trace : List KernelOp
deriving DecidableEq

/-- From `spherical_tokamak.py` lines 193-238: the pre-assembly stage of
`spherical_tokamak`. -/
def prepared (radial_build vertical_build : Build) (tri rot : ℚ) :
    Except Failure Prepared :=
  match equatorialGeometry? radial_build, get_plasma_value vertical_build with
  | some g, some plasma_vertical_thickness =>
    let elongation := (plasma_vertical_thickness / 2) / g.minor
    let blanket_rear_wall_end_height := sumThick vertical_build
    let plasma := plasma_simplified g.major g.minor elongation tri rot
    match create_center_column_shield_cylinders radial_build vertical_build rot with
    | none => .error ⟨.indexError, [], []⟩
    | some inner_radial_build =>
      match sum_up_to_gap_before_plasma radial_build with
      | none => .error ⟨.configuration, [], []⟩
      | some cutThickness =>
        let blanket_cutting_cylinder := center_column_shield_cylinder 0 cutThickness
          none 360 (2 * blanket_rear_wall_end_height) none
        match create_blanket_layers_after_plasma radial_build vertical_build
            g.minor g.major tri elongation rot blanket_cutting_cylinder with
        | .error tr => .error ⟨.indexError, [], tr⟩
        | .ok (blanket_layers, tr) =>
          .ok ⟨g, elongation, plasma, inner_radial_build, blanket_layers, tr⟩
  | _, _ => .error ⟨.configuration, [], []⟩

/-- From `spherical_tokamak.py` lines 263-300: layer registration (cut path
or plain path) followed by the plasma part, then the scalar
attributes. -/
def finish (P : Prepared) (tri : ℚ) (cutParts iparts : List Part)
    (cutSolids icut : List Solid) (preOps : List KernelOp)
    (colors : ColorTable) (comps : Solid → List Solid) : Except Failure Output :=
  let layersAll := P.cylinders ++ P.layers
  let lp :=
    if cutSolids = [] ∧ icut = [] then
      (plainLayerParts colors layersAll 0, ([] : List KernelOp))
    else registerLayersCut colors comps (cutSolids ++ icut) layersAll 0
  let plasmaPart := partMk colors "plasma" P.plasma
  .ok ⟨cutParts ++ iparts ++ lp.1 ++ [plasmaPart],
       P.trace ++ preOps ++ lp.2,
       P.elongation, tri, P.geo.major, P.geo.minor⟩

/-- From `spherical_tokamak.py` lines 240-308: the assembly-building stage of
`spherical_tokamak`. -/
def assemblyStage (P : Prepared) (tri : ℚ) (extra_cut_shapes : List ExtraEntry)
    (extra_intersect_shapes : List Solid) (colors : ColorTable)
    (comps : Solid → List Solid) : Except Failure Output :=
  match validate_extra_cut_shapes colors extra_cut_shapes 0 with
  | .error (m, ps) => .error ⟨.valueError m, ps, P.trace⟩
  | .ok (cutParts, cutSolids) =>
    match extra_intersect_shapes with
    | [] => finish P tri cutParts [] cutSolids [] [] colors comps
    | ei =>
      match P.cylinders with
      | [] => .error ⟨.indexError, cutParts, P.trace⟩
      | c0 :: crest =>
        let cu := unionFold c0 (crest ++ P.layers)
        let bi := buildIntersects colors cu.1 ei 0
        finish P tri cutParts bi.1 cutSolids bi.2.1 (cu.2 ++ bi.2.2) colors comps

end SphericalTokamak

/-- The kernel trace accumulated by a successful pre-assembly stage of
`spherical_tokamak` (the union and cut calls made while building the
blanket layers). -/
def sphericalPreparedTrace (radial_build vertical_build : Build) (tri rot : ℚ) :
    Option (List KernelOp) :=
  match SphericalTokamak.prepared radial_build vertical_build tri rot with
  | .ok P => some P.trace
  | .error _ => none

/-- From `spherical_tokamak.py` lines 165-308: the `spherical_tokamak`
assembly function. -/
def spherical_tokamak (radial_build vertical_build : Build) (tri rot : ℚ)
    (extra_cut_shapes : List ExtraEntry) (extra_intersect_shapes : List Solid)
    (colors : ColorTable) (comps : Solid → List Solid) : Except Failure Output :=
  match SphericalTokamak.prepared radial_build vertical_build tri rot with
  | .error f => .error f
  | .ok P =>
    SphericalTokamak.assemblyStage P tri extra_cut_shapes extra_intersect_shapes
      colors comps

/-- From `spherical_tokamak.py` lines 146-152: the spherical-tokamak
vertical-build synthesis: mirror the outboard radial stack around a
plasma entry of height `2 * minor_radius * elongation`. -/
def spherical_synth_vertical_build (radial_build : Build) (elongation : ℚ) :
    Option Build :=
  match equatorialGeometry? radial_build, get_plasma_index radial_build with
  | some g, some pi =>
    let upper_vertical_build := radial_build.drop pi
    let plasma_height := 2 * g.minor * elongation
    some (upper_vertical_build.reverse.dropLast
      ++ [(LayerType.plasma, plasma_height)] ++ upper_vertical_build.drop 1)
  | _, _ => none

/-- From `spherical_tokamak.py` lines 107-162: `spherical_tokamak_from_plasma`. -/
def spherical_tokamak_from_plasma (radial_build : Build) (elongation tri rot : ℚ)
    (extra_cut_shapes : List ExtraEntry) (extra_intersect_shapes : List Solid)
    (colors : ColorTable) (comps : Solid → List Solid) : Except Failure Output :=
  match spherical_synth_vertical_build radial_build elongation with
  | none => .error ⟨.configuration, [], []⟩
  | some vertical_build =>
    spherical_tokamak radial_build vertical_build tri rot
      extra_cut_shapes extra_intersect_shapes colors comps

namespace Tokamak

/-- One step of the `count_cylinder_layers` loop: the state is
`(found_plasma, before_plasma, after_plasma)`. -/
def countStep (st : Bool × ℤ × ℤ) (item : BuildEntry) : Bool × ℤ × ℤ :=
  if item.1 = LayerType.plasma then (true, st.2.1, st.2.2)
  else if item.1 = LayerType.solid then
    if st.1 then (st.1, st.2.1, st.2.2 + 1) else (st.1, st.2.1 + 1, st.2.2)
  else st

/-- From `tokamak.py` lines 13-27: `count_cylinder_layers`, the difference
between the number of SOLID entries before and after the (first) plasma
entry. -/
def count_cylinder_layers (radial_build : Build) : ℤ :=
  let st := radial_build.foldl countStep (false, 0, 0)
  st.2.1 - st.2.2

/-- From `tokamak.py` lines 30-60, the loop body of
`create_center_column_shield_cylinders`: stop at the plasma, gaps
advance the running radius, solids emit a shell until the layer count
would exceed `number_of_cylinder_layers`. -/
def create_ccs_cylinders_aux (rotation_angle height : ℚ) (n : ℤ) :
    List BuildEntry → ℚ → ℕ → List Solid
  | [], _, _ => []
  | item :: rest, total_sum, layer_count =>
    if item.1 = LayerType.plasma then []
    else if item.1 = LayerType.gap then
      create_ccs_cylinders_aux rotation_angle height n rest (total_sum + item.2) layer_count
    else
      let lc := layer_count + 1
      if n < (lc : ℤ) then []
      else
        center_column_shield_cylinder total_sum item.2
            (some ("layer_" ++ toString lc)) rotation_angle height none
          :: create_ccs_cylinders_aux rotation_angle height n rest (total_sum + item.2) lc

/-- From `tokamak.py` lines 30-60: the conventional-tokamak center-column
shield builder. -/
def create_center_column_shield_cylinders (radial_build : Build)
    (rotation_angle center_column_shield_height : ℚ) : List Solid :=
  create_ccs_cylinders_aux rotation_angle center_column_shield_height
    (count_cylinder_layers radial_build) radial_build 0 0

/-- From `tokamak.py` lines 72-150, the loop body of
`create_layers_from_plasma`: for each index delta from the radial
plasma index to the end of the radial build, skip the plasma entry,
read the four thicknesses with Python indexing (negative indices wrap),
gaps only accumulate, solids build an outer and an inner lofted shell
that are unioned.  The fuel argument is the remaining loop count. -/
def create_layers_aux (rb vb : Build) (pirb pivb : ℕ)
    (minor major tri elong rot : ℚ) :
    ℕ → ℕ → ℚ → ℚ → ℚ → ℚ → List Solid → List KernelOp →
    Except (List KernelOp) (List Solid × List KernelOp)
  | 0, _, _, _, _, _, accS, accT => .ok (accS, accT)
  | n + 1, delta, co, ci, cu, cl, accS, accT =>
    match pyGet rb ((pirb : ℤ) + delta) with
    | none => .error accT
    | some outerIt =>
      if outerIt.1 = LayerType.plasma then
        create_layers_aux rb vb pirb pivb minor major tri elong rot n (delta + 1)
          co ci cu cl accS accT
      else
        match pyGet rb ((pirb : ℤ) - delta), pyGet vb ((pivb : ℤ) - delta),
            pyGet vb ((pivb : ℤ) + delta) with
        | some innerIt, some upperIt, some lowerIt =>
          let outer_layer_thickness := outerIt.2
          let inner_layer_thickness := innerIt.2
          let upper_layer_thickness := upperIt.2
          let lower_layer_thickness := lowerIt.2
          if outerIt.1 = LayerType.gap then
            create_layers_aux rb vb pirb pivb minor major tri elong rot n (delta + 1)
              (co + outer_layer_thickness) (ci + inner_layer_thickness)
              (cu + upper_layer_thickness) (cl + lower_layer_thickness) accS accT
          else
            let outer_layer := blanket_from_plasma minor major tri elong
              [upper_layer_thickness, outer_layer_thickness, lower_layer_thickness]
              [cu, co, cl] 90 (-90) rot ("layer_" ++ toString delta) true false
            let inner_layer := blanket_from_plasma minor major tri elong
              [lower_layer_thickness, inner_layer_thickness, upper_layer_thickness]
              [cl, ci, cu] (-90) (-270) rot ("layer_" ++ toString delta) true false
            let layer := Solid.union outer_layer inner_layer
            create_layers_aux rb vb pirb pivb minor major tri elong rot n (delta + 1)
              (co + outer_layer_thickness) (ci + inner_layer_thickness)
              (cu + upper_layer_thickness) (cl + lower_layer_thickness)
              (accS ++ [layer]) (accT ++ [KernelOp.unionOp outer_layer inner_layer])
        | _, _, _ => .error accT

/-- From `tokamak.py` lines 72-150: the conventional-tokamak lofted layer
builder (its `center_column` parameter is unused in the source body). -/
def create_layers_from_plasma (radial_build vertical_build : Build)
    (minor major tri elong rot : ℚ) (center_column : Solid) :
    Except (List KernelOp) (List Solid × List KernelOp) :=
  match get_plasma_index radial_build, get_plasma_index vertical_build with
  | some pirb, some pivb =>
    create_layers_aux radial_build vertical_build pirb pivb minor major tri elong rot
      (radial_build.length - pirb) 0 0 0 0 0 [] []
  | _, _ => .error []

/-- Everything `tokamak` computes before building the assembly
(`tokamak.py` lines 254-286).  Reading `inner_radial_build[0]` as the
`center_column` argument raises an `IndexError` when the cylinder list
is empty, before any layer is built. -/
structure Prepared where
  geo : EqGeo
  elongation : ℚ
  plasma : Solid
  cylinders : List Solid
  layers : List Solid
  trace : List KernelOp
deriving DecidableEq

/-- From `tokamak.py` lines 254-286: the pre-assembly stage of `tokamak`. -/
def prepared (radial_build vertical_build : Build) (tri rot : ℚ) :
    Except Failure Prepared :=
  match equatorialGeometry? radial_build, get_plasma_value vertical_build with
  | some g, some plasma_vertical_thickness =>
    let elongation := (plasma_vertical_thickness / 2) / g.minor
    let blanket_rear_wall_end_height := sumThick vertical_build
    let plasma := plasma_simplified g.major g.minor elongation tri rot
    let inner_radial_build := create_center_column_shield_cylinders radial_build rot
      blanket_rear_wall_end_height
    match inner_radial_build with
    | [] => .error ⟨.indexError, [], []⟩
    | c0 :: _ =>
      match create_layers_from_plasma radial_build vertical_build
          g.minor g.major tri elongation rot c0 with
      | .error tr => .error ⟨.indexError, [], tr⟩
      | .ok (blanket_layers, tr) =>
        .ok ⟨g, elongation, plasma, inner_radial_build, blanket_layers, tr⟩
  | _, _ => .error ⟨.configuration, [], []⟩

/-- From `tokamak.py` lines 318-323 as executed: cut every layer with the
cutter list, recording the calls, and return the final loop bindings
(the cut result and index of the last layer). -/
def cutLayersAll (cutters : List Solid) :
    List Solid → ℕ → List KernelOp × Option (Solid × ℕ)
  | [], _ => ([], none)
  | entry :: rest, i =>
    let (cutE, ops) := cutWithAll entry cutters
    match cutLayersAll cutters rest (i + 1) with
    | (tr, none) => (ops ++ tr, some (cutE, i))
    | (tr, some last) => (ops ++ tr, some last)

/-- From `tokamak.py` lines 310-347 as executed: the whole per-intersect-shape
loop.  Because the layer-registration block is indented inside this
loop, each iteration cuts every layer but registers only the part(s)
for the final loop bindings, i.e. the last layer. -/
def intersectLoop (colors : ColorTable) (comps : Solid → List Solid)
    (cutSolids : List Solid) (compound : Solid) (layers : List Solid) :
    List Solid → ℕ → List Solid → List Part × List KernelOp
  | [], _, _ => ([], [])
  | s :: rest, k, acc =>
    let inter := Solid.intersect s compound
    let acc2 := acc ++ [inter]
    let iPart := partMk colors ("extra_intersect_shapes_" ++ toString (k + 1)) inter
    let combined_cutters := cutSolids ++ acc2
    let (cops, lastO) := cutLayersAll combined_cutters layers 0
    let lparts :=
      match lastO with
      | none => []
      | some (lastE, li) =>
        let sl := comps lastE
        if 1 < sl.length then
          sl.enum.map (fun p =>
            partMk colors ("layer_" ++ toString (li + 1) ++ "_part_" ++ toString (p.1 + 1)) p.2)
        else
          [partMk colors ("layer_" ++ toString (li + 1)) (sl.headD lastE)]
    let (ps, ops) := intersectLoop colors comps cutSolids compound layers rest (k + 1) acc2
    ((iPart :: lparts) ++ ps, (KernelOp.intersectOp s compound :: cops) ++ ops)

/-- From `tokamak.py` lines 288-355: the assembly-building stage of
`tokamak`.  When `extra_intersect_shapes` is empty the whole
intersect-and-register block is skipped: no layer part and no plasma
part is ever added. -/
def assemblyStage (P : Prepared) (tri : ℚ) (extra_cut_shapes : List ExtraEntry)
    (extra_intersect_shapes : List Solid) (colors : ColorTable)
    (comps : Solid → List Solid) : Except Failure Output :=
  match validate_extra_cut_shapes colors extra_cut_shapes 0 with
  | .error (m, ps) => .error ⟨.valueError m, ps, P.trace⟩
  | .ok (cutParts, cutSolids) =>
    match extra_intersect_shapes with
    | [] => .ok ⟨cutParts, P.trace, P.elongation, tri, P.geo.major, P.geo.minor⟩
    | ei =>
      match P.cylinders with
      | [] => .error ⟨.indexError, cutParts, P.trace⟩
      | c0 :: crest =>
        let all_shapes := P.cylinders ++ P.layers
        let cu := unionFold c0 (crest ++ P.layers)
        let po := intersectLoop colors comps cutSolids cu.1 all_shapes ei 0 []
        .ok ⟨cutParts ++ po.1, P.trace ++ cu.2 ++ po.2,
             P.elongation, tri, P.geo.major, P.geo.minor⟩

end Tokamak

/-- From `tokamak.py` lines 218-355: the `tokamak` assembly function. -/
def tokamak (radial_build vertical_build : Build) (tri rot : ℚ)
    (extra_cut_shapes : List ExtraEntry) (extra_intersect_shapes : List Solid)
    (colors : ColorTable) (comps : Solid → List Solid) : Except Failure Output :=
  match Tokamak.prepared radial_build vertical_build tri rot with
  | .error f => .error f
  | .ok P =>
    Tokamak.assemblyStage P tri extra_cut_shapes extra_intersect_shapes colors comps

/-- From `tokamak.py` lines 198-205: the conventional-tokamak vertical-build
synthesis: mirror the inboard radial entries (as many as there are
outboard entries) around a plasma entry of height
`2 * minor_radius * elongation`.  The slice uses Python semantics. -/
def tokamak_synth_vertical_build (radial_build : Build) (elongation : ℚ) :
    Option Build :=
  match equatorialGeometry? radial_build, get_plasma_index radial_build with
  | some g, some pi =>
    let rbi := radial_build.length - 1 - pi
    let upper_vertical_build :=
      (pySlice radial_build ((pi : ℤ) - (rbi : ℤ)) (pi : ℤ)).reverse
    let plasma_height := 2 * g.minor * elongation
    some (upper_vertical_build.reverse
      ++ [(LayerType.plasma, plasma_height)] ++ upper_vertical_build)
  | _, _ => none

/-- From `tokamak.py` lines 153-215: `tokamak_from_plasma`. -/
def tokamak_from_plasma (radial_build : Build) (elongation tri rot : ℚ)
    (extra_cut_shapes : List ExtraEntry) (extra_intersect_shapes : List Solid)
    (colors : ColorTable) (comps : Solid → List Solid) : Except Failure Output :=
  match tokamak_synth_vertical_build radial_build elongation with
  | none => .error ⟨.configuration, [], []⟩
  | some vertical_build =>
    tokamak radial_build vertical_build tri rot
      extra_cut_shapes extra_intersect_shapes colors comps

/-- The radial build of the worked example in the spec (§8). -/
def exampleRB : Build :=
  [(LayerType.gap, 10), (LayerType.solid, 50), (LayerType.solid, 15),
   (LayerType.gap, 50), (LayerType.plasma, 300), (LayerType.gap, 60),
   (LayerType.solid, 15), (LayerType.solid, 60), (LayerType.solid, 10)]

/-- A trivial connected-component decomposition used for witnesses:
every solid is in one piece. -/
def compsOne : Solid → List Solid := fun s => [s]

/-- The radial build of the repository's `tokamak_from_plasma` example
scripts (5 inboard and 3 outboard SOLID entries, so the conventional
center column keeps 2 cylinders). -/
def exampleConvRB : Build :=
  [(LayerType.gap, 10), (LayerType.solid, 30), (LayerType.solid, 50),
   (LayerType.solid, 10), (LayerType.solid, 120), (LayerType.solid, 20),
   (LayerType.gap, 60), (LayerType.plasma, 300), (LayerType.gap, 60),
   (LayerType.solid, 20), (LayerType.solid, 120), (LayerType.solid, 10)]

/-- Number of SOLID entries of a build. -/
def nSolid (l : Build) : ℕ :=
  l.countP (fun e => decide (e.1 = LayerType.solid))

/-- A build segment containing no PLASMA entry. -/
def plasmaFree (l : Build) : Prop :=
  ∀ e ∈ l, e.1 ≠ LayerType.plasma

/-- The inboard span described by claim C5: the radial-build entries
read backward ("spanning back") from the plasma index, as many as there
are outboard entries. -/
def specInboard (rb : Build) (pi : ℕ) : Build :=
  ((rb.take pi).drop (pi - (rb.length - 1 - pi))).reverse

/-- The emission rule of claim C6, as the claim words it: walk the
entries before the plasma with a running inner radius fed by every
entry's thickness; a SOLID entry produces a shell only while its solid
ordinal is at most `N`; a GAP entry never produces one. -/
def specShieldWalk (rot h : ℚ) (N : ℤ) : Build → ℚ → ℕ → List Solid
  | [], _, _ => []
  | e :: rest, r, k =>
    if e.1 = LayerType.solid then
      if ((k : ℤ) + 1) ≤ N then
        center_column_shield_cylinder r e.2 (some ("layer_" ++ toString (k + 1)))
            rot h none
          :: specShieldWalk rot h N rest (r + e.2) (k + 1)
      else specShieldWalk rot h N rest (r + e.2) (k + 1)
    else specShieldWalk rot h N rest (r + e.2) k

/-- Claim C6's description of the conventional-tokamak center-column
shield builder: shells only for the first
`N = (#SOLID before plasma) - (#SOLID after plasma)` SOLID entries
before the plasma. -/
def ccShieldCylindersSpec (rb : Build) (rot h : ℚ) : List Solid :=
  match get_plasma_index rb with
  | none => []
  | some pi =>
    let N : ℤ := (nSolid (rb.take pi) : ℤ) - (nSolid (rb.drop (pi + 1)) : ℤ)
    specShieldWalk rot h N (rb.take pi) 0 0

/-- The vertical build `tokamak_from_plasma` synthesizes for
`exampleConvRB` with elongation 2 (mirrored inboard entries around a
600-thick plasma). -/
def exampleConvVB : Build :=
  [(LayerType.solid, 10), (LayerType.solid, 120), (LayerType.solid, 20),
   (LayerType.gap, 60), (LayerType.plasma, 600), (LayerType.gap, 60),
   (LayerType.solid, 20), (LayerType.solid, 120), (LayerType.solid, 10)]

/-- A minimal radial build with as many SOLID entries after the plasma
as before it. -/
def smallRB : Build :=
  [(LayerType.solid, 1), (LayerType.plasma, 2), (LayerType.solid, 1)]

theorem take_len_append (ys zs : List α) : (ys ++ zs).take ys.length = ys := by
  induction ys with
  | nil => simp
  | cons a ys ih => simpa using ih

theorem drop_len_append (ys zs : List α) : (ys ++ zs).drop ys.length = zs := by
  induction ys with
  | nil => simp
  | cons a ys ih => simpa using ih

theorem get?_len_append (ys : List α) (a : α) (zs : List α) :
    (ys ++ a :: zs).get? ys.length = some a := by
  induction ys with
  | nil => simp
  | cons b ys ih => simpa using ih

theorem get?_append_len_eq (ys : List α) (a : α) (zs : List α) (n : ℕ)
    (h : ys.length = n) : (ys ++ a :: zs).get? n = some a := by
  subst h
  exact get?_len_append ys a zs

theorem plasmaFree_take (l : Build) (k : ℕ) (h : plasmaFree l) :
    plasmaFree (l.take k) :=
  fun e he => h e (List.take_subset k l he)

theorem plasmaFree_drop (l : Build) (k : ℕ) (h : plasmaFree l) :
    plasmaFree (l.drop k) :=
  fun e he => h e (List.drop_subset k l he)

theorem plasmaFree_reverse (l : Build) (h : plasmaFree l) :
    plasmaFree l.reverse :=
  fun e he => h e (List.mem_reverse.mp he)

/-- The index `get_plasma_index` on a build with a unique plasma entry returns
the position of that entry. -/
theorem gpi_append_plasma (ys zs : Build) (x : ℚ)
    (hys : plasmaFree ys) (hzs : plasmaFree zs) :
    get_plasma_index (ys ++ (LayerType.plasma, x) :: zs) = some ys.length := by
  induction ys with
  | nil =>
    have hall : zs.all (fun e => decide (e.1 ≠ LayerType.plasma)) = true := by
      rw [List.all_eq_true]
      intro e he
      exact decide_eq_true (hzs e he)
    rw [List.nil_append, get_plasma_index, if_pos rfl, if_pos hall]
    rfl
  | cons a ys ih =>
    have ha : a.1 ≠ LayerType.plasma := hys a (List.mem_cons_self a ys)
    have hys2 : plasmaFree ys := fun e he => hys e (List.mem_cons_of_mem a he)
    simp [get_plasma_index, ha, ih hys2]

/-- A successful `get_plasma_index` splits the build into a plasma-free
prefix, the plasma entry, and a plasma-free suffix. -/
theorem gpi_split (b : Build) (pi : ℕ) (h : get_plasma_index b = some pi) :
    ∃ x, b.take pi ++ (LayerType.plasma, x) :: b.drop (pi + 1) = b ∧
      plasmaFree (b.take pi) ∧ plasmaFree (b.drop (pi + 1)) := by
  induction b generalizing pi with
  | nil => simp [get_plasma_index] at h
  | cons a rest ih =>
    by_cases ha : a.1 = LayerType.plasma
    · rw [get_plasma_index, if_pos ha] at h
      by_cases hall : rest.all (fun e => decide (e.1 ≠ LayerType.plasma)) = true
      · rw [if_pos hall] at h
        obtain rfl : pi = 0 := by simpa using h.symm
        refine ⟨a.2, ?_, ?_, ?_⟩
        · have : a = (LayerType.plasma, a.2) := by
            cases a; simp_all
          simp [this.symm]
        · intro e he; simp at he
        · intro e he
          have := List.all_eq_true.mp hall e (by simpa using he)
          simpa using this
      · rw [if_neg hall] at h
        exact absurd h (by simp)
    · rw [get_plasma_index, if_neg ha] at h
      obtain ⟨pj, hpj, rfl⟩ : ∃ pj, get_plasma_index rest = some pj ∧ pi = pj + 1 := by
        cases hg : get_plasma_index rest with
        | none => rw [hg] at h; simp at h
        | some pj =>
          rw [hg] at h
          exact ⟨pj, rfl, by simpa using h.symm⟩
      obtain ⟨x, heq, hpre, hpost⟩ := ih pj hpj
      refine ⟨x, ?_, ?_, ?_⟩
      · simpa using heq
      · intro e he
        rcases List.mem_cons.mp (by simpa using he) with rfl | hmem
        · exact ha
        · exact hpre e hmem
      · simpa using hpost

/-- The value `get_plasma_value` on a build with a unique plasma entry returns
that entry's thickness. -/
theorem gpv_append_plasma (ys zs : Build) (x : ℚ)
    (hys : plasmaFree ys) (hzs : plasmaFree zs) :
    get_plasma_value (ys ++ (LayerType.plasma, x) :: zs) = some x := by
  rw [get_plasma_value, gpi_append_plasma ys zs x hys hzs]
  simp only [Option.some_bind]
  rw [get?_len_append]
  rfl

/-- The plasma index is inside the build. -/
theorem gpi_lt_length (b : Build) (pi : ℕ) (h : get_plasma_index b = some pi) :
    pi < b.length := by
  obtain ⟨x, heq, -, -⟩ := gpi_split b pi h
  have := congrArg List.length heq
  simp at this
  omega

theorem sum_up_to_plasma_exampleRB : sum_up_to_plasma exampleRB = some 125 := by
  rw [sum_up_to_plasma, (by decide : get_plasma_index exampleRB = some 4)]
  show some (sumThick (exampleRB.take 4)) = some 125
  rw [exampleRB]
  norm_num [sumThick]

theorem geoExample : equatorialGeometry? exampleRB = some ⟨125, 425, 275, 150⟩ := by
  rw [equatorialGeometry?, sum_up_to_plasma_exampleRB,
    (by decide : get_plasma_value exampleRB = some 300)]
  norm_num

theorem sum_up_to_plasma_exampleConvRB :
    sum_up_to_plasma exampleConvRB = some 300 := by
  rw [sum_up_to_plasma, (by decide : get_plasma_index exampleConvRB = some 7)]
  show some (sumThick (exampleConvRB.take 7)) = some 300
  rw [exampleConvRB]
  norm_num [sumThick]

theorem geoConv : equatorialGeometry? exampleConvRB = some ⟨300, 600, 450, 150⟩ := by
  rw [equatorialGeometry?, sum_up_to_plasma_exampleConvRB,
    (by decide : get_plasma_value exampleConvRB = some 300)]
  norm_num

/-- C1: for the spec's example radial build the equatorial-geometry
derivation used by the pipeline yields inner_equatorial = 125 (the sum
of all thicknesses strictly before the plasma entry, which sits at
index 4), outer_equatorial = 425 = inner + plasma thickness,
major_radius = (125 + 425) / 2 = 275 and minor_radius = 275 - 125 = 150. -/
theorem c1_equatorial_geometry_example :
    equatorialGeometry? exampleRB = some ⟨125, 425, 275, 150⟩ ∧
    get_plasma_index exampleRB = some 4 ∧
    sumThick (exampleRB.take 4) = 125 ∧
    get_plasma_value exampleRB = some 300 := by
  refine ⟨geoExample, by decide, ?_, by decide⟩
  rw [exampleRB]
  norm_num [sumThick]

/-- C2 (code-bug evidence): the `tokamak` assembly function never
registers a part named `plasma`: on the repository's own example build
it returns an assembly with no parts at all, while `spherical_tokamak`
on the spec's example build does append `plasma` last. -/
theorem c2_tokamak_has_no_plasma_part :
    resultPartNames (tokamak_from_plasma exampleConvRB 2 (11/20) 180 [] [] [] compsOne) =
      some [] ∧
    resultPartNames (spherical_tokamak exampleRB exampleRB (11/20) 180 [] [] [] compsOne) =
      some ["layer_1", "layer_2", "layer_3", "layer_4", "layer_5", "plasma"] := by
  decide

/-- C3 (counterexample): with a valid workplane followed by a plain
`int` in `extra_cut_shapes`, `spherical_tokamak` raises a `ValueError`
whose message names only the type (no index), at a moment when one part
(`add_extra_cut_shape_1`) has already been registered and three kernel
boolean calls (the blanket-layer cuts) have already been made — contrary
to the claim that no part is registered and no kernel call made. -/
theorem c3_counterexample :
    failureError (spherical_tokamak exampleRB exampleRB (11/20) 180
        [ExtraEntry.workplane (Solid.extraShape 0), ExtraEntry.notWorkplane "int"]
        [] [] compsOne) =
      some (.valueError "extra_cut_shapes should only contain cadquery Workplanes, not int") ∧
    failurePartNames (spherical_tokamak exampleRB exampleRB (11/20) 180
        [ExtraEntry.workplane (Solid.extraShape 0), ExtraEntry.notWorkplane "int"]
        [] [] compsOne) =
      some ["add_extra_cut_shape_1"] ∧
    (failureTrace (spherical_tokamak exampleRB exampleRB (11/20) 180
        [ExtraEntry.workplane (Solid.extraShape 0), ExtraEntry.notWorkplane "int"]
        [] [] compsOne)).map List.length =
      some 3 := by
  decide

/-- C4 (code-bug evidence): on the repository's example build, which has
5 layers, running `tokamak_from_plasma` with one extra intersect shape
registers only the part for the last layer (`layer_5`) next to the
intersect part, instead of one part per layer as the spec's trim stage
prescribes. -/
theorem c4_tokamak_registers_only_last_layer :
    resultPartNames (tokamak_from_plasma exampleConvRB 2 (11/20) 180 []
        [Solid.extraShape 0] [] compsOne) =
      some ["extra_intersect_shapes_1", "layer_5"] := by
  decide

/-- C7: for the spec's example radial build and any vertical build with
a unique plasma entry, the spherical-tokamak center-column shield
builder emits exactly two cylinders: `layer_1` with inner radius 10 and
outer radius 60, and `layer_2` with inner radius 60 and outer radius
75. -/
theorem c7_spherical_shield_cylinders_example (vb : Build) (rot bef aft : ℚ)
    (hvb : sum_before_after_plasma vb = some (bef, aft)) :
    (SphericalTokamak.create_center_column_shield_cylinders exampleRB vb rot).map
        (fun l => l.map cylinderInfo) =
      some [some ("layer_1", 10, 60), some ("layer_2", 60, 75)] := by
  simp only [SphericalTokamak.create_center_column_shield_cylinders, hvb,
    SphericalTokamak.create_ccs_cylinders_aux, exampleRB,
    center_column_shield_cylinder, List.head?, reduceCtorEq, reduceIte,
    Option.map_some', List.map_cons, List.map_nil, Option.some.injEq,
    List.cons.injEq, and_true, cylinderInfo, Prod.mk.injEq]
  norm_num
  decide

theorem c7_witness :
    sum_before_after_plasma exampleRB = some (125, 145) ∧
    (SphericalTokamak.create_center_column_shield_cylinders exampleRB exampleRB 180).map
        (fun l => l.map cylinderInfo) =
      some [some ("layer_1", 10, 60), some ("layer_2", 60, 75)] := by
  have hvb : sum_before_after_plasma exampleRB = some (125, 145) := by
    rw [sum_before_after_plasma, (by decide : get_plasma_index exampleRB = some 4)]
    show some (sumThick (exampleRB.take 4), sumThick (exampleRB.drop 5)) = some (125, 145)
    rw [exampleRB]
    norm_num [sumThick]
  exact ⟨hvb, c7_spherical_shield_cylinders_example exampleRB 180 125 145 hvb⟩

/-- A successful `extra_cut_shapes` registration loop produces exactly
the parts `add_extra_cut_shape_<i+1>`, `add_extra_cut_shape_<i+2>`, …
in order. -/
theorem validate_ok_names (colors : ColorTable) (l : List ExtraEntry) :
    ∀ (i : ℕ) ps ss, validate_extra_cut_shapes colors l i = .ok (ps, ss) →
      ps.map (fun p => p.1) =
        (List.range l.length).map
          (fun k => "add_extra_cut_shape_" ++ toString (i + k + 1)) := by
  induction l with
  | nil =>
    intro i ps ss h
    rw [validate_extra_cut_shapes] at h
    obtain ⟨rfl, rfl⟩ : ps = [] ∧ ss = [] := by
      constructor <;> { cases h; rfl }
    simp
  | cons a rest ih =>
    intro i ps ss h
    cases a with
    | workplane s =>
      rw [validate_extra_cut_shapes] at h
      cases hrec : validate_extra_cut_shapes colors rest (i + 1) with
      | error e => rw [hrec] at h; cases h
      | ok pr =>
        rw [hrec] at h
        obtain ⟨ps2, ss2⟩ := pr
        obtain ⟨rfl, rfl⟩ : ps = partMk colors ("add_extra_cut_shape_" ++ toString (i + 1)) s :: ps2
            ∧ ss = s :: ss2 := by
          constructor <;> { cases h; rfl }
        have hih := ih (i + 1) ps2 ss2 hrec
        simp only [List.length_cons, List.range_succ_eq_map, List.map_cons, List.map_map]
        refine congrArg₂ _ rfl ?_
        rw [hih]
        refine List.map_congr_left ?_
        intro k _
        simp only [Function.comp]
        refine congrArg _ (congrArg _ ?_)
        omega
    | notWorkplane tn =>
      rw [validate_extra_cut_shapes] at h
      cases h

/-- C9: whenever `tokamak` is called with an empty
`extra_intersect_shapes` list and returns an assembly, that assembly
contains exactly the `add_extra_cut_shape_<k>` parts — no `layer_*`
part and no `plasma` part — because the layer-registration block only
executes inside the iteration over `extra_intersect_shapes`. -/
theorem c9_tokamak_empty_intersects (rb vb : Build) (tri rot : ℚ)
    (ec : List ExtraEntry) (colors : ColorTable) (comps : Solid → List Solid)
    (h : isOk (tokamak rb vb tri rot ec [] colors comps) = true) :
    resultPartNames (tokamak rb vb tri rot ec [] colors comps) =
      some ((List.range ec.length).map
        (fun k => "add_extra_cut_shape_" ++ toString (k + 1))) ∧
    "plasma" ∉ (resultPartNames (tokamak rb vb tri rot ec [] colors comps)).getD [] := by
  cases hprep : Tokamak.prepared rb vb tri rot with
  | error f =>
    rw [tokamak, hprep] at h
    simp [isOk] at h
  | ok P =>
    rw [tokamak, hprep] at h ⊢
    cases hval : validate_extra_cut_shapes colors ec 0 with
    | error e =>
      obtain ⟨m, ps⟩ := e
      simp only [Tokamak.assemblyStage, hval] at h
      simp [isOk] at h
    | ok pr =>
      obtain ⟨cutParts, cutSolids⟩ := pr
      simp only [Tokamak.assemblyStage, hval]
      have hnames := validate_ok_names colors ec 0 cutParts cutSolids hval
      have hnames2 : cutParts.map (fun p => p.1) =
          (List.range ec.length).map
            (fun k => "add_extra_cut_shape_" ++ toString (k + 1)) := by
        rw [hnames]
        refine List.map_congr_left ?_
        intro k _
        refine congrArg _ (congrArg _ ?_)
        omega
      refine ⟨by rw [resultPartNames, hnames2], ?_⟩
      rw [resultPartNames, hnames2]
      intro hmem
      simp only [Option.getD_some] at hmem
      obtain ⟨k, -, hk⟩ := List.mem_map.mp hmem
      have hlen := congrArg String.length hk
      rw [String.length_append] at hlen
      have h20 : ("add_extra_cut_shape_" : String).length = 20 := by decide
      have h6 : ("plasma" : String).length = 6 := by decide
      omega

theorem c9_witness :
    isOk (tokamak exampleConvRB exampleConvVB (11/20) 180
      [ExtraEntry.workplane (Solid.extraShape 0)] [] [] compsOne) = true ∧
    resultPartNames (tokamak exampleConvRB exampleConvVB (11/20) 180
      [ExtraEntry.workplane (Solid.extraShape 0)] [] [] compsOne) =
      some ["add_extra_cut_shape_1"] ∧
    "plasma" ∉ (resultPartNames (tokamak exampleConvRB exampleConvVB (11/20) 180
      [ExtraEntry.workplane (Solid.extraShape 0)] [] [] compsOne)).getD [] := by
  have h : isOk (tokamak exampleConvRB exampleConvVB (11/20) 180
      [ExtraEntry.workplane (Solid.extraShape 0)] [] [] compsOne) = true := by decide
  have main := c9_tokamak_empty_intersects exampleConvRB exampleConvVB (11/20) 180
    [ExtraEntry.workplane (Solid.extraShape 0)] [] compsOne h
  refine ⟨h, ?_, main.2⟩
  rw [main.1]
  decide

/-- The `count_cylinder_layers` fold over a plasma-free prefix counts
its SOLID entries into the before-component. -/
theorem countStep_free (ys : Build) (hys : plasmaFree ys) :
    ∀ b a : ℤ, ys.foldl Tokamak.countStep (false, b, a) = (false, b + (nSolid ys : ℤ), a) := by
  induction ys with
  | nil => intro b a; simp [nSolid]
  | cons e ys ih =>
    intro b a
    have he : e.1 ≠ LayerType.plasma := hys e (List.mem_cons_self e ys)
    have hys2 : plasmaFree ys := fun x hx => hys x (List.mem_cons_of_mem e hx)
    rw [List.foldl_cons]
    cases h1 : e.1 with
    | plasma => exact absurd h1 he
    | solid =>
      have hstep : Tokamak.countStep (false, b, a) e = (false, b + 1, a) := by
        simp [Tokamak.countStep, h1]
      rw [hstep, ih hys2]
      have : nSolid (e :: ys) = nSolid ys + 1 := by
        simp [nSolid, List.countP_cons, h1]
      rw [this]
      push_cast
      ring_nf
    | gap =>
      have hstep : Tokamak.countStep (false, b, a) e = (false, b, a) := by
        simp [Tokamak.countStep, h1]
      rw [hstep, ih hys2]
      have : nSolid (e :: ys) = nSolid ys := by
        simp [nSolid, List.countP_cons, h1]
      rw [this]

/-- After the plasma has been seen, the `count_cylinder_layers` fold
counts SOLID entries into the after-component. -/
theorem countStep_after (zs : Build) :
    ∀ b a : ℤ, zs.foldl Tokamak.countStep (true, b, a) = (true, b, a + (nSolid zs : ℤ)) := by
  induction zs with
  | nil => intro b a; simp [nSolid]
  | cons e zs ih =>
    intro b a
    rw [List.foldl_cons]
    cases h1 : e.1 with
    | plasma =>
      have hstep : Tokamak.countStep (true, b, a) e = (true, b, a) := by
        simp [Tokamak.countStep, h1]
      rw [hstep, ih]
      have : nSolid (e :: zs) = nSolid zs := by
        simp [nSolid, List.countP_cons, h1]
      rw [this]
    | solid =>
      have hstep : Tokamak.countStep (true, b, a) e = (true, b, a + 1) := by
        simp [Tokamak.countStep, h1]
      rw [hstep, ih]
      have : nSolid (e :: zs) = nSolid zs + 1 := by
        simp [nSolid, List.countP_cons, h1]
      rw [this]
      push_cast
      ring_nf
    | gap =>
      have hstep : Tokamak.countStep (true, b, a) e = (true, b, a) := by
        simp [Tokamak.countStep, h1]
      rw [hstep, ih]
      have : nSolid (e :: zs) = nSolid zs := by
        simp [nSolid, List.countP_cons, h1]
      rw [this]

/-- The result of `count_cylinder_layers` equals the difference of the SOLID counts
strictly before and strictly after the unique plasma entry. -/
theorem count_eq (rb : Build) (pi : ℕ) (hpi : get_plasma_index rb = some pi) :
    Tokamak.count_cylinder_layers rb =
      (nSolid (rb.take pi) : ℤ) - (nSolid (rb.drop (pi + 1)) : ℤ) := by
  obtain ⟨x, heq, hpre, hpost⟩ := gpi_split rb pi hpi
  conv_lhs => rw [← heq]
  simp only [Tokamak.count_cylinder_layers]
  rw [List.foldl_append, countStep_free _ hpre, List.foldl_cons]
  have hstep : Tokamak.countStep (false, 0 + (nSolid (rb.take pi) : ℤ), 0) (LayerType.plasma, x) =
      (true, 0 + (nSolid (rb.take pi) : ℤ), 0) := by
    simp [Tokamak.countStep]
  rw [hstep, countStep_after]
  push_cast
  ring_nf

/-- When `number_of_cylinder_layers` is not positive, the conventional
cylinder loop breaks before emitting anything. -/
theorem ccs_aux_nil_of_nonpos (rot h : ℚ) (n : ℤ) (hn : n ≤ 0) :
    ∀ (l : List BuildEntry) (r : ℚ) (lc : ℕ),
      Tokamak.create_ccs_cylinders_aux rot h n l r lc = [] := by
  intro l
  induction l with
  | nil => intro r lc; rfl
  | cons item rest ih =>
    intro r lc
    rw [Tokamak.create_ccs_cylinders_aux]
    by_cases hp : item.1 = LayerType.plasma
    · rw [if_pos hp]
    · rw [if_neg hp]
      by_cases hg : item.1 = LayerType.gap
      · rw [if_pos hg]
        exact ih _ _
      · rw [if_neg hg]
        have hlt : n < ((lc + 1 : ℕ) : ℤ) := by omega
        simp only [if_pos hlt]

/-- C10: when the radial build has at least as many SOLID entries after
the plasma as before it, `count_cylinder_layers` is not positive,
`create_center_column_shield_cylinders` returns an empty list, and
`tokamak` raises an unhandled IndexError while reading
`inner_radial_build[0]`, returning no assembly. -/
theorem c10_empty_cylinder_list_raises (rb vb : Build) (tri rot : ℚ)
    (ec : List ExtraEntry) (ei : List Solid) (colors : ColorTable)
    (comps : Solid → List Solid) (pi : ℕ) (pv : ℚ)
    (hpi : get_plasma_index rb = some pi)
    (hpv : get_plasma_value vb = some pv)
    (hcnt : nSolid (rb.take pi) ≤ nSolid (rb.drop (pi + 1))) :
    Tokamak.count_cylinder_layers rb ≤ 0 ∧
    Tokamak.create_center_column_shield_cylinders rb rot (sumThick vb) = [] ∧
    tokamak rb vb tri rot ec ei colors comps = .error ⟨.indexError, [], []⟩ := by
  have hc := count_eq rb pi hpi
  have h1 : Tokamak.count_cylinder_layers rb ≤ 0 := by
    rw [hc]; omega
  have h2 : Tokamak.create_center_column_shield_cylinders rb rot (sumThick vb) = [] := by
    rw [Tokamak.create_center_column_shield_cylinders]
    exact ccs_aux_nil_of_nonpos rot (sumThick vb) _ h1 rb 0 0
  obtain ⟨x, heq, hpre, hpost⟩ := gpi_split rb pi hpi
  have hlen : (rb.take pi).length = pi := by
    rw [List.length_take]
    have := gpi_lt_length rb pi hpi
    omega
  have hsum : sum_up_to_plasma rb = some (sumThick (rb.take pi)) := by
    rw [sum_up_to_plasma, hpi]; rfl
  have hgv : get_plasma_value rb = some x := by
    rw [get_plasma_value, hpi]
    simp only [Option.some_bind]
    conv_lhs => rw [← heq]
    rw [get?_append_len_eq _ _ _ _ hlen]
    rfl
  have hgeo : equatorialGeometry? rb =
      some ⟨sumThick (rb.take pi), sumThick (rb.take pi) + x,
        (sumThick (rb.take pi) + x + sumThick (rb.take pi)) / 2,
        (sumThick (rb.take pi) + x + sumThick (rb.take pi)) / 2 - sumThick (rb.take pi)⟩ := by
    rw [equatorialGeometry?, hsum, hgv]
  refine ⟨h1, h2, ?_⟩
  simp only [tokamak, Tokamak.prepared, hgeo, hpv, h2]

theorem c10_witness :
    get_plasma_index smallRB = some 1 ∧
    get_plasma_value smallRB = some 2 ∧
    nSolid (smallRB.take 1) ≤ nSolid (smallRB.drop 2) ∧
    Tokamak.count_cylinder_layers smallRB ≤ 0 ∧
    Tokamak.create_center_column_shield_cylinders smallRB 180 (sumThick smallRB) = [] ∧
    tokamak smallRB smallRB (11/20) 180 [] [] [] compsOne = .error ⟨.indexError, [], []⟩ := by
  have main := c10_empty_cylinder_list_raises smallRB smallRB (11/20) 180 [] [] [] compsOne
    1 2 (by decide) (by decide) (by decide)
  exact ⟨by decide, by decide, by decide, main.1, main.2.1, main.2.2⟩

/-- C5: for every radial build with a unique plasma entry and at least
as many inboard as outboard entries, `tokamak_from_plasma` synthesizes
`vertical = reverse(inboard) ++ [PLASMA] ++ inboard`, where `inboard`
reads the radial entries backward from the plasma index, as many as
there are outboard entries, and the synthesized plasma thickness is
`2 * minor_radius * elongation`. -/
theorem c5_tokamak_vertical_synthesis (rb : Build) (e : ℚ) (g : EqGeo) (pi : ℕ)
    (hg : equatorialGeometry? rb = some g)
    (hpi : get_plasma_index rb = some pi)
    (hspan : rb.length - 1 - pi ≤ pi) :
    tokamak_synth_vertical_build rb e =
      some ((specInboard rb pi).reverse
        ++ [(LayerType.plasma, 2 * g.minor * e)] ++ specInboard rb pi) ∧
    get_plasma_value ((specInboard rb pi).reverse
        ++ [(LayerType.plasma, 2 * g.minor * e)] ++ specInboard rb pi) =
      some (2 * g.minor * e) := by
  obtain ⟨x, heq, hpre, hpost⟩ := gpi_split rb pi hpi
  have hlt := gpi_lt_length rb pi hpi
  have hb1 : pyBound rb (pi : ℤ) = pi := by
    rw [pyBound, if_neg (by omega : ¬ ((pi : ℤ) < 0))]
    have ht1 : ((pi : ℤ)).toNat = pi := by omega
    rw [ht1]
    exact Nat.min_eq_left (Nat.le_of_lt hlt)
  have hb2 : pyBound rb ((pi : ℤ) - ((rb.length - 1 - pi : ℕ) : ℤ)) =
      pi - (rb.length - 1 - pi) := by
    rw [pyBound, if_neg (by omega : ¬ ((pi : ℤ) - ((rb.length - 1 - pi : ℕ) : ℤ) < 0))]
    have ht2 : (((pi : ℤ) - ((rb.length - 1 - pi : ℕ) : ℤ))).toNat =
        pi - (rb.length - 1 - pi) := by omega
    rw [ht2]
    exact Nat.min_eq_left (by omega)
  have hsl : pySlice rb ((pi : ℤ) - ((rb.length - 1 - pi : ℕ) : ℤ)) (pi : ℤ) =
      (rb.take pi).drop (pi - (rb.length - 1 - pi)) := by
    rw [pySlice, hb1, hb2]
  have hfree : plasmaFree ((rb.take pi).drop (pi - (rb.length - 1 - pi))) :=
    plasmaFree_drop _ _ hpre
  constructor
  · simp only [tokamak_synth_vertical_build, hg, hpi, hsl, specInboard]
  · simp only [specInboard, List.reverse_reverse, List.append_assoc,
      List.singleton_append]
    exact gpv_append_plasma _ _ _
      (plasmaFree_drop _ _ hpre)
      (plasmaFree_reverse _ (plasmaFree_drop _ _ hpre))

theorem c5_witness :
    equatorialGeometry? exampleRB = some ⟨125, 425, 275, 150⟩ ∧
    get_plasma_index exampleRB = some 4 ∧
    exampleRB.length - 1 - 4 ≤ 4 ∧
    tokamak_synth_vertical_build exampleRB 2 =
      some ((specInboard exampleRB 4).reverse
        ++ [(LayerType.plasma, 2 * (150 : ℚ) * 2)] ++ specInboard exampleRB 4) ∧
    get_plasma_value ((specInboard exampleRB 4).reverse
        ++ [(LayerType.plasma, 2 * (150 : ℚ) * 2)] ++ specInboard exampleRB 4) =
      some (2 * (150 : ℚ) * 2) := by
  have main := c5_tokamak_vertical_synthesis exampleRB 2 ⟨125, 425, 275, 150⟩ 4
    geoExample (by decide) (by decide)
  exact ⟨geoExample, by decide, by decide, main.1, main.2⟩

/-- Once the solid ordinal has exceeded `N`, the claim-side walk emits
nothing more. -/
theorem specShieldWalk_nil_of_exceeded (rot h : ℚ) (N : ℤ) :
    ∀ (l : Build) (r : ℚ) (k : ℕ), N < (k : ℤ) + 1 →
      specShieldWalk rot h N l r k = [] := by
  intro l
  induction l with
  | nil => intro r k _; rfl
  | cons e rest ih =>
    intro r k hk
    rw [specShieldWalk]
    by_cases hs : e.1 = LayerType.solid
    · rw [if_pos hs, if_neg (by omega : ¬ ((k : ℤ) + 1) ≤ N)]
      exact ih _ _ (by push_cast; omega)
    · rw [if_neg hs]
      exact ih _ _ hk

/-- Over the plasma-free prefix of the radial build, the conventional
cylinder loop emits exactly what the claim-side walk describes. -/
theorem ccs_aux_eq_specWalk (rot h : ℚ) (N : ℤ) (x : ℚ) (zs : Build) :
    ∀ (ys : Build), plasmaFree ys → ∀ (r : ℚ) (k : ℕ),
      Tokamak.create_ccs_cylinders_aux rot h N (ys ++ (LayerType.plasma, x) :: zs) r k =
        specShieldWalk rot h N ys r k := by
  intro ys
  induction ys with
  | nil =>
    intro _ r k
    rw [List.nil_append, Tokamak.create_ccs_cylinders_aux, if_pos rfl, specShieldWalk]
  | cons e ys ih =>
    intro hys r k
    have he : e.1 ≠ LayerType.plasma := hys e (List.mem_cons_self e ys)
    have hys2 : plasmaFree ys := fun a ha => hys a (List.mem_cons_of_mem e ha)
    rw [List.cons_append, Tokamak.create_ccs_cylinders_aux, specShieldWalk,
      if_neg he]
    cases h1 : e.1 with
    | plasma => exact absurd h1 he
    | gap =>
      simp only [reduceCtorEq, reduceIte]
      exact ih hys2 _ _
    | solid =>
      simp only [reduceCtorEq, reduceIte]
      by_cases hk : ((k : ℤ) + 1) ≤ N
      · rw [if_neg (by push_cast; omega : ¬ N < ((k + 1 : ℕ) : ℤ)), if_pos hk]
        rw [ih hys2 _ _]
      · rw [if_pos (by push_cast; omega : N < ((k + 1 : ℕ) : ℤ)), if_neg hk]
        rw [specShieldWalk_nil_of_exceeded rot h N ys _ _ (by push_cast; omega)]

/-- C6: for every radial build with a unique plasma entry, the
conventional-tokamak center-column shield builder emits exactly the
shells the claim describes: one per SOLID entry among the first
`N = (#SOLID before plasma) - (#SOLID after plasma)` of them, with GAP
entries feeding the running inner radius but emitting nothing. -/
theorem c6_conventional_shield_emission (rb : Build) (rot h : ℚ) (pi : ℕ)
    (hpi : get_plasma_index rb = some pi) :
    Tokamak.create_center_column_shield_cylinders rb rot h =
      ccShieldCylindersSpec rb rot h := by
  obtain ⟨x, heq, hpre, hpost⟩ := gpi_split rb pi hpi
  have key := ccs_aux_eq_specWalk rot h
    ((nSolid (rb.take pi) : ℤ) - (nSolid (rb.drop (pi + 1)) : ℤ)) x
    (rb.drop (pi + 1)) (rb.take pi) hpre 0 0
  rw [heq] at key
  rw [Tokamak.create_center_column_shield_cylinders, count_eq rb pi hpi]
  simp only [ccShieldCylindersSpec, hpi]
  exact key

theorem c6_witness :
    get_plasma_index exampleConvRB = some 7 ∧
    Tokamak.create_center_column_shield_cylinders exampleConvRB 180 100 =
      ccShieldCylindersSpec exampleConvRB 180 100 :=
  ⟨by decide, c6_conventional_shield_emission exampleConvRB 180 100 7 (by decide)⟩

theorem drop_append_len_eq (ys : List α) (a : α) (zs : List α) (n : ℕ)
    (h : ys.length = n) : (ys ++ a :: zs).drop n = a :: zs := by
  subst h
  exact drop_len_append ys (a :: zs)

theorem dropLast_append_single (l : List α) (a : α) : (l ++ [a]).dropLast = l := by
  induction l with
  | nil => rfl
  | cons b l ih =>
    cases l with
    | nil => rfl
    | cons c l => simpa [List.dropLast] using ih

theorem pyBound_natCast (l : List α) (n : ℕ) (h : n ≤ l.length) :
    pyBound l (n : ℤ) = n := by
  rw [pyBound, if_neg (by omega : ¬ ((n : ℤ) < 0))]
  have ht : ((n : ℤ)).toNat = n := by omega
  rw [ht]
  exact Nat.min_eq_left h

/-- The vertical build synthesized by `spherical_tokamak_from_plasma`
has its unique plasma entry of thickness `2 * minor_radius * elongation`. -/
theorem spherical_synth_plasma_value (rb : Build) (e : ℚ) (g : EqGeo) (pi : ℕ)
    (hg : equatorialGeometry? rb = some g) (hpi : get_plasma_index rb = some pi) :
    (spherical_synth_vertical_build rb e).bind get_plasma_value =
      some (2 * g.minor * e) := by
  obtain ⟨x, heq, hpre, hpost⟩ := gpi_split rb pi hpi
  have hlen : (rb.take pi).length = pi := by
    rw [List.length_take]
    have := gpi_lt_length rb pi hpi
    omega
  have hdrop : rb.drop pi = (LayerType.plasma, x) :: rb.drop (pi + 1) := by
    conv_lhs => rw [← heq]
    exact drop_append_len_eq _ _ _ _ hlen
  simp only [spherical_synth_vertical_build, hg, hpi, hdrop, List.reverse_cons,
    dropLast_append_single, List.drop_succ_cons, List.drop_zero, Option.some_bind]
  rw [List.append_assoc, List.singleton_append]
  exact gpv_append_plasma _ _ _ (plasmaFree_reverse _ hpost) hpost

/-- The vertical build synthesized by `tokamak_from_plasma` has its
unique plasma entry of thickness `2 * minor_radius * elongation`. -/
theorem tokamak_synth_plasma_value (rb : Build) (e : ℚ) (g : EqGeo) (pi : ℕ)
    (hg : equatorialGeometry? rb = some g) (hpi : get_plasma_index rb = some pi) :
    (tokamak_synth_vertical_build rb e).bind get_plasma_value =
      some (2 * g.minor * e) := by
  obtain ⟨x, heq, hpre, hpost⟩ := gpi_split rb pi hpi
  have hlt := gpi_lt_length rb pi hpi
  have hfree : plasmaFree
      (pySlice rb ((pi : ℤ) - ((rb.length - 1 - pi : ℕ) : ℤ)) (pi : ℤ)) := by
    intro a ha
    rw [pySlice, pyBound_natCast rb pi (Nat.le_of_lt hlt)] at ha
    exact hpre a (List.drop_subset _ _ ha)
  simp only [tokamak_synth_vertical_build, hg, hpi, List.reverse_reverse,
    Option.some_bind]
  rw [List.append_assoc, List.singleton_append]
  exact gpv_append_plasma _ _ _ hfree (plasmaFree_reverse _ hfree)

/-- The spherical assembly stage copies the prepared elongation into the
returned assembly. -/
theorem spherical_assembly_elongation (P : SphericalTokamak.Prepared) (tri : ℚ)
    (ec : List ExtraEntry) (ei : List Solid) (colors : ColorTable)
    (comps : Solid → List Solid) (out : Output)
    (h : SphericalTokamak.assemblyStage P tri ec ei colors comps = .ok out) :
    out.elongation = P.elongation := by
  rw [SphericalTokamak.assemblyStage] at h
  split at h
  · exact Except.noConfusion h
  · split at h
    · rw [SphericalTokamak.finish] at h
      injection h with h2
      subst h2
      rfl
    · split at h
      · exact Except.noConfusion h
      · rw [SphericalTokamak.finish] at h
        injection h with h2
        subst h2
        rfl

/-- The spherical pre-assembly stage sets the elongation to
`(plasma_vertical_thickness / 2) / minor_radius`. -/
theorem sphericalPrepared_elongation (rb vb : Build) (tri rot : ℚ) (g : EqGeo)
    (pv : ℚ) (P : SphericalTokamak.Prepared)
    (hg : equatorialGeometry? rb = some g)
    (hpv : get_plasma_value vb = some pv)
    (hP : SphericalTokamak.prepared rb vb tri rot = .ok P) :
    P.elongation = (pv / 2) / g.minor := by
  simp only [SphericalTokamak.prepared, hg, hpv] at hP
  split at hP
  · exact Except.noConfusion hP
  · split at hP
    · exact Except.noConfusion hP
    · split at hP
      · exact Except.noConfusion hP
      · injection hP with h2
        subst h2
        rfl

/-- The tokamak assembly stage copies the prepared elongation into the
returned assembly. -/
theorem tokamak_assembly_elongation (P : Tokamak.Prepared) (tri : ℚ)
    (ec : List ExtraEntry) (ei : List Solid) (colors : ColorTable)
    (comps : Solid → List Solid) (out : Output)
    (h : Tokamak.assemblyStage P tri ec ei colors comps = .ok out) :
    out.elongation = P.elongation := by
  rw [Tokamak.assemblyStage] at h
  split at h
  · exact Except.noConfusion h
  · split at h
    · injection h with h2
      subst h2
      rfl
    · split at h
      · exact Except.noConfusion h
      · injection h with h2
        subst h2
        rfl

/-- The tokamak pre-assembly stage sets the elongation to
`(plasma_vertical_thickness / 2) / minor_radius`. -/
theorem tokamakPrepared_elongation (rb vb : Build) (tri rot : ℚ) (g : EqGeo)
    (pv : ℚ) (P : Tokamak.Prepared)
    (hg : equatorialGeometry? rb = some g)
    (hpv : get_plasma_value vb = some pv)
    (hP : Tokamak.prepared rb vb tri rot = .ok P) :
    P.elongation = (pv / 2) / g.minor := by
  simp only [Tokamak.prepared, hg, hpv] at hP
  split at hP
  · exact Except.noConfusion hP
  · split at hP
    · exact Except.noConfusion hP
    · injection hP with h2
      subst h2
      rfl

theorem elong_roundtrip_arith (m e : ℚ) (hm : m ≠ 0) : (2 * m * e / 2) / m = e := by
  field_simp

/-- C8: with a valid radial build and positive minor radius, both
from-plasma constructors synthesize a plasma vertical thickness of
`2 * minor_radius * elongation`, and the elongation attribute the
returned assembly stores — re-derived by the pipeline as
`(plasma vertical thickness / 2) / minor_radius` — recovers the
requested elongation exactly. -/
theorem c8_elongation_roundtrip (rb : Build) (e tri rot : ℚ)
    (ec : List ExtraEntry) (ei : List Solid) (colors : ColorTable)
    (comps : Solid → List Solid) (g : EqGeo) (pi : ℕ)
    (hg : equatorialGeometry? rb = some g)
    (hpi : get_plasma_index rb = some pi)
    (hm : 0 < g.minor)
    (hok1 : isOk (spherical_tokamak_from_plasma rb e tri rot ec ei colors comps) = true)
    (hok2 : isOk (tokamak_from_plasma rb e tri rot ec ei colors comps) = true) :
    (spherical_synth_vertical_build rb e).bind get_plasma_value =
      some (2 * g.minor * e) ∧
    (tokamak_synth_vertical_build rb e).bind get_plasma_value =
      some (2 * g.minor * e) ∧
    resultElongation (spherical_tokamak_from_plasma rb e tri rot ec ei colors comps) =
      some e ∧
    resultElongation (tokamak_from_plasma rb e tri rot ec ei colors comps) =
      some e := by
  have h1 := spherical_synth_plasma_value rb e g pi hg hpi
  have h2 := tokamak_synth_plasma_value rb e g pi hg hpi
  refine ⟨h1, h2, ?_, ?_⟩
  · cases hsynth : spherical_synth_vertical_build rb e with
    | none => rw [hsynth] at h1; simp at h1
    | some vbS =>
      rw [hsynth] at h1
      simp only [Option.some_bind] at h1
      simp only [spherical_tokamak_from_plasma, hsynth] at hok1 ⊢
      cases hst : spherical_tokamak rb vbS tri rot ec ei colors comps with
      | error f => rw [hst] at hok1; simp [isOk] at hok1
      | ok out =>
        cases hprep : SphericalTokamak.prepared rb vbS tri rot with
        | error f =>
          simp only [spherical_tokamak, hprep] at hst
          exact Except.noConfusion hst
        | ok P =>
          simp only [spherical_tokamak, hprep] at hst
          have he1 := spherical_assembly_elongation P tri ec ei colors comps out hst
          have he2 := sphericalPrepared_elongation rb vbS tri rot g
            (2 * g.minor * e) P hg h1 hprep
          rw [resultElongation, he1, he2,
            elong_roundtrip_arith g.minor e (ne_of_gt hm)]
  · cases hsynth : tokamak_synth_vertical_build rb e with
    | none => rw [hsynth] at h2; simp at h2
    | some vbT =>
      rw [hsynth] at h2
      simp only [Option.some_bind] at h2
      simp only [tokamak_from_plasma, hsynth] at hok2 ⊢
      cases hst : tokamak rb vbT tri rot ec ei colors comps with
      | error f => rw [hst] at hok2; simp [isOk] at hok2
      | ok out =>
        cases hprep : Tokamak.prepared rb vbT tri rot with
        | error f =>
          simp only [tokamak, hprep] at hst
          exact Except.noConfusion hst
        | ok P =>
          simp only [tokamak, hprep] at hst
          have he1 := tokamak_assembly_elongation P tri ec ei colors comps out hst
          have he2 := tokamakPrepared_elongation rb vbT tri rot g
            (2 * g.minor * e) P hg h2 hprep
          rw [resultElongation, he1, he2,
            elong_roundtrip_arith g.minor e (ne_of_gt hm)]

theorem c8_witness :
    isOk (spherical_tokamak_from_plasma exampleConvRB 2 (11/20) 180 [] [] [] compsOne)
      = true ∧
    isOk (tokamak_from_plasma exampleConvRB 2 (11/20) 180 [] [] [] compsOne) = true ∧
    (spherical_synth_vertical_build exampleConvRB 2).bind get_plasma_value =
      some (2 * (150 : ℚ) * 2) ∧
    (tokamak_synth_vertical_build exampleConvRB 2).bind get_plasma_value =
      some (2 * (150 : ℚ) * 2) ∧
    resultElongation (spherical_tokamak_from_plasma exampleConvRB 2 (11/20) 180
      [] [] [] compsOne) = some 2 ∧
    resultElongation (tokamak_from_plasma exampleConvRB 2 (11/20) 180
      [] [] [] compsOne) = some 2 := by
  have hok1 : isOk (spherical_tokamak_from_plasma exampleConvRB 2 (11/20) 180
      [] [] [] compsOne) = true := by decide
  have hok2 : isOk (tokamak_from_plasma exampleConvRB 2 (11/20) 180
      [] [] [] compsOne) = true := by decide
  have main := c8_elongation_roundtrip exampleConvRB 2 (11/20) 180 [] [] [] compsOne
    ⟨300, 600, 450, 150⟩ 7 geoConv (by decide) (by norm_num) hok1 hok2
  exact ⟨hok1, hok2, main.1, main.2.1, main.2.2.1, main.2.2.2⟩

/-- A registration loop that hits a non-Workplane entry raises the
`ValueError` naming that entry's type, with exactly the parts for the
preceding valid entries already registered. -/
theorem validate_error_on_invalid (colors : ColorTable) (tn : String)
    (post : List ExtraEntry) :
    ∀ (pre : List ExtraEntry) (i : ℕ), (∀ e ∈ pre, e.isWorkplane = true) →
    ∃ ps, validate_extra_cut_shapes colors
        (pre ++ ExtraEntry.notWorkplane tn :: post) i =
        .error ("extra_cut_shapes should only contain cadquery Workplanes, not " ++ tn, ps) ∧
      ps.map (fun p => p.1) =
        (List.range pre.length).map
          (fun k => "add_extra_cut_shape_" ++ toString (i + k + 1)) := by
  intro pre
  induction pre with
  | nil =>
    intro i _
    refine ⟨[], ?_, by simp⟩
    rw [List.nil_append, validate_extra_cut_shapes]
  | cons a pre ih =>
    intro i hpre
    cases a with
    | notWorkplane s =>
      exact absurd (hpre _ (List.mem_cons_self _ _))
        (by simp [ExtraEntry.isWorkplane])
    | workplane s =>
      obtain ⟨ps, hval, hnames⟩ :=
        ih (i + 1) (fun e he => hpre e (List.mem_cons_of_mem _ he))
      refine ⟨partMk colors ("add_extra_cut_shape_" ++ toString (i + 1)) s :: ps,
        ?_, ?_⟩
      · simp only [List.cons_append, validate_extra_cut_shapes, List.append_eq, hval]
      · simp only [List.map_cons, hnames, List.length_cons,
          List.range_succ_eq_map, List.map_map]
        refine congrArg₂ _ rfl ?_
        refine List.map_congr_left ?_
        intro k _
        simp only [Function.comp]
        exact congrArg _ (congrArg _ (by omega))

/-- C3 (amended): a non-Workplane entry in `extra_cut_shapes` makes
`spherical_tokamak` raise a `ValueError` naming the offending entry's
type (not its index); at that moment the entries before it have already
been registered as `add_extra_cut_shape_<k>` parts and the kernel calls
already made are exactly those of the layer-construction stage; no
boolean call involving the extra cut shapes has happened. -/
theorem c3_amended_invalid_cut_entry (rb vb : Build) (tri rot : ℚ)
    (pre post : List ExtraEntry) (tn : String) (ei : List Solid)
    (colors : ColorTable) (comps : Solid → List Solid)
    (hok : isOk (SphericalTokamak.prepared rb vb tri rot) = true)
    (hpre : ∀ e ∈ pre, e.isWorkplane = true) :
    failureError (spherical_tokamak rb vb tri rot
        (pre ++ ExtraEntry.notWorkplane tn :: post) ei colors comps) =
      some (.valueError
        ("extra_cut_shapes should only contain cadquery Workplanes, not " ++ tn)) ∧
    failurePartNames (spherical_tokamak rb vb tri rot
        (pre ++ ExtraEntry.notWorkplane tn :: post) ei colors comps) =
      some ((List.range pre.length).map
        (fun k => "add_extra_cut_shape_" ++ toString (k + 1))) ∧
    failureTrace (spherical_tokamak rb vb tri rot
        (pre ++ ExtraEntry.notWorkplane tn :: post) ei colors comps) =
      sphericalPreparedTrace rb vb tri rot := by
  cases hprep : SphericalTokamak.prepared rb vb tri rot with
  | error f =>
    rw [hprep] at hok
    simp [isOk] at hok
  | ok P =>
    obtain ⟨ps, hval, hnames⟩ := validate_error_on_invalid colors tn post pre 0 hpre
    have hs : spherical_tokamak rb vb tri rot
        (pre ++ ExtraEntry.notWorkplane tn :: post) ei colors comps =
        .error ⟨.valueError
          ("extra_cut_shapes should only contain cadquery Workplanes, not " ++ tn),
          ps, P.trace⟩ := by
      simp only [spherical_tokamak, hprep, SphericalTokamak.assemblyStage, hval]
    have hnames2 : ps.map (fun p => p.1) =
        (List.range pre.length).map
          (fun k => "add_extra_cut_shape_" ++ toString (k + 1)) := by
      rw [hnames]
      refine List.map_congr_left ?_
      intro k _
      exact congrArg _ (congrArg _ (by omega))
    refine ⟨?_, ?_, ?_⟩
    · rw [hs]; rfl
    · rw [hs, failurePartNames, hnames2]
    · rw [hs, failureTrace, sphericalPreparedTrace, hprep]

theorem c3_amended_witness :
    isOk (SphericalTokamak.prepared exampleRB exampleRB (11/20) 180) = true ∧
    failureError (spherical_tokamak exampleRB exampleRB (11/20) 180
        ([ExtraEntry.workplane (Solid.extraShape 0)]
          ++ ExtraEntry.notWorkplane "int" :: []) [] [] compsOne) =
      some (.valueError
        ("extra_cut_shapes should only contain cadquery Workplanes, not " ++ "int")) ∧
    failurePartNames (spherical_tokamak exampleRB exampleRB (11/20) 180
        ([ExtraEntry.workplane (Solid.extraShape 0)]
          ++ ExtraEntry.notWorkplane "int" :: []) [] [] compsOne) =
      some ((List.range 1).map
        (fun k => "add_extra_cut_shape_" ++ toString (k + 1))) ∧
    failureTrace (spherical_tokamak exampleRB exampleRB (11/20) 180
        ([ExtraEntry.workplane (Solid.extraShape 0)]
          ++ ExtraEntry.notWorkplane "int" :: []) [] [] compsOne) =
      sphericalPreparedTrace exampleRB exampleRB (11/20) 180 := by
  have hok : isOk (SphericalTokamak.prepared exampleRB exampleRB (11/20) 180) = true := by
    decide
  have main := c3_amended_invalid_cut_entry exampleRB exampleRB (11/20) 180
    [ExtraEntry.workplane (Solid.extraShape 0)] [] "int" [] [] compsOne hok (by decide)
  exact ⟨hok, main.1, main.2.1, main.2.2⟩

end Paramak
